import Mathlib

/-!
# Verification of `convert_csv_to_latlon.py` (nsidc0790_tools)

Shallow embedding of the coordinate-transform pipeline in
`create_lat_lon_conc_files/convert_csv_to_latlon.py`.

Conventions of the embedding:
* numpy float32 arithmetic is embedded in `ℚ`; the decimal constants of the
  source (`25067.525`, `-999`, `999`) are exact rationals.
* a table row is a `List ℚ`; a table is a `List (List ℚ)` of rows.
* numpy slicing `a[off::3]` and slice assignment `a[off::3] = r` are embedded
  as the total list functions `sliceStep3` and `setSlice3`.
* the external pyproj transformer (`epsg:3408 -> epsg:4326`) is an opaque
  elementwise parameter `reproj : ℚ → ℚ → ℚ × ℚ` of the pipeline; theorems
  quantify over it or instantiate it with a concrete function whose range,
  like real geodetic coordinates, avoids the sentinel values.
-/

set_option autoImplicit false

namespace NSIDC0790

/-- `grid_resolution = 25067.525` in `gen_latlonconc_from_csv`
(1 grid cell = 200.5402km/8 = 25067.525 m). -/
def grid_resolution : ℚ := 25067.525

/-- `xvals = (ivals - 180) * grid_resolution`. -/
def xval (i : ℚ) : ℚ := (i - 180) * grid_resolution

/-- `yvals = (180 - jvals) * grid_resolution`. -/
def yval (j : ℚ) : ℚ := (180 - j) * grid_resolution

/-- Boolean mask `arr == -999`, elementwise over a row
(`missing_locs_prior = arr == -999`). -/
def missing_locs_prior (row : List ℚ) : List Bool :=
  row.map (fun v => decide (v = -999))

/-- Boolean mask `arr == 999`, elementwise over a row
(`missing_locs_post = arr == 999`). -/
def missing_locs_post (row : List ℚ) : List Bool :=
  row.map (fun v => decide (v = 999))

/-- numpy masked assignment `arr[mask] = c` on one row: every cell whose mask
bit is set becomes `c`, every other cell is unchanged. -/
def applyMask (xs : List ℚ) (mask : List Bool) (c : ℚ) : List ℚ :=
  List.zipWith (fun v m => if m then c else v) xs mask

/-- Elements at positions `0, 3, 6, ...` of a list (`a[0::3]` on a row). -/
def takeEvery3 : List ℚ → List ℚ
  | [] => []
  | [x] => [x]
  | [x, _] => [x]
  | x :: _ :: _ :: rest => x :: takeEvery3 rest

/-- numpy slice `a[off::3]` on one row. -/
def sliceStep3 (off : ℕ) (xs : List ℚ) : List ℚ :=
  takeEvery3 (xs.drop off)

/-- Replace the elements at positions `0, 3, 6, ...` of `xs` by the elements
of `rs` in order, keeping everything else. -/
def setStep3 : List ℚ → List ℚ → List ℚ
  | [], _ => []
  | x :: xt, [] => x :: xt
  | [_], r :: _ => [r]
  | [_, b], r :: _ => [r, b]
  | _ :: b :: c :: rest, r :: rs => r :: b :: c :: setStep3 rest rs

/-- numpy slice assignment `a[off::3] = rs` on one row. -/
def setSlice3 (off : ℕ) (xs rs : List ℚ) : List ℚ :=
  xs.take off ++ setStep3 (xs.drop off) rs

/-- The working copy of a raw row after
`arr[missing_locs_prior] = 0; arr[missing_locs_post] = 0`: both masks are
computed over the raw row first, then the flagged cells are zeroed. -/
def zeroedRow (row : List ℚ) : List ℚ :=
  applyMask (applyMask row (missing_locs_prior row) 0) (missing_locs_post row) 0

/-- One row of `lats` as produced by
`transformer.transform(xvals, yvals)`, with
`xvals = (ivals - 180) * grid_resolution`, `yvals = (180 - jvals) * grid_resolution`,
`ivals = arr[:, 0::3]`, `jvals = arr[:, 1::3]`; the transformer acts
elementwise via the parameter `reproj`. -/
def latsRow (reproj : ℚ → ℚ → ℚ × ℚ) (row : List ℚ) : List ℚ :=
  List.zipWith (fun x y => (reproj x y).1)
    ((sliceStep3 0 (zeroedRow row)).map xval)
    ((sliceStep3 1 (zeroedRow row)).map yval)

/-- One row of `lons`, the second component of the same elementwise
transform. -/
def lonsRow (reproj : ℚ → ℚ → ℚ × ℚ) (row : List ℚ) : List ℚ :=
  List.zipWith (fun x y => (reproj x y).2)
    ((sliceStep3 0 (zeroedRow row)).map xval)
    ((sliceStep3 1 (zeroedRow row)).map yval)

/-- One row of `ll_arr` after
`ll_arr = arr.copy(); ll_arr[:, 0::3] = lats; ll_arr[:, 1::3] = lons`. -/
def ll_row (reproj : ℚ → ℚ → ℚ × ℚ) (row : List ℚ) : List ℚ :=
  setSlice3 1 (setSlice3 0 (zeroedRow row) (latsRow reproj row)) (lonsRow reproj row)

/-- One row of the body of `gen_latlonconc_from_csv`, from the loaded raw row
to the corresponding row of `ll_arr` after sentinel reapplication
(`ll_arr[missing_locs_prior] = -999; ll_arr[missing_locs_post] = 999`).
Every array operation of the source acts row-independently, so the pipeline
is stated per row. -/
def procRow (reproj : ℚ → ℚ → ℚ × ℚ) (row : List ℚ) : List ℚ :=
  applyMask (applyMask (ll_row reproj row) (missing_locs_prior row) (-999))
    (missing_locs_post row) 999

/-- The emitted lats table: `lats = ll_arr[:, 0::3]`. -/
def latsTable (reproj : ℚ → ℚ → ℚ × ℚ) (rows : List (List ℚ)) : List (List ℚ) :=
  rows.map (fun r => sliceStep3 0 (procRow reproj r))

/-- The emitted lons table: `lons = ll_arr[:, 1::3]`. -/
def lonsTable (reproj : ℚ → ℚ → ℚ × ℚ) (rows : List (List ℚ)) : List (List ℚ) :=
  rows.map (fun r => sliceStep3 1 (procRow reproj r))

/-- The emitted concentration table: `cvals = ll_arr[:, 2::3]`. -/
def concTable (reproj : ℚ → ℚ → ℚ × ℚ) (rows : List (List ℚ)) : List (List ℚ) :=
  rows.map (fun r => sliceStep3 2 (procRow reproj r))

/-- Python `str.split(sep)` for a one-character separator: split at every
occurrence, keeping empty fields, with `''.split(sep) == ['']`. -/
def pySplit (sep : Char) : List Char → List (List Char)
  | [] => [[]]
  | c :: rest =>
    match pySplit sep rest with
    | [] => [[c]]
    | w :: ws => if c = sep then [] :: w :: ws else (c :: w) :: ws

/-- Python `sep.join(words)` for a one-character separator. -/
def pyJoin (sep : Char) : List (List Char) → List Char
  | [] => []
  | [w] => w
  | w :: ws => w ++ sep :: pyJoin sep ws

/-- `list_of_dates = [val[2:] for val in orig_csv_header.split(',') if val[:2] == 'i_']`
in `read_csv_header`. -/
def list_of_dates (orig_csv_header : String) : List (List Char) :=
  ((pySplit ',' orig_csv_header.toList).filter
    (fun val => val.take 2 = ['i', '_'])).map (fun val => val.drop 2)

/-- `csv_header = ','.join(list_of_dates)` in `read_csv_header`. -/
def csv_header (orig_csv_header : String) : String :=
  String.mk (pyJoin ',' (list_of_dates orig_csv_header))

/-- Numeric value of a decimal digit character. -/
def digitVal (c : Char) : ℕ := c.toNat - '0'.toNat

/-- Gregorian leap-year rule, as in Python's `datetime`. -/
def isLeap (y : ℕ) : Bool := y % 4 = 0 && (y % 100 ≠ 0 || y % 400 = 0)

/-- Days in a month, as validated by Python's `datetime` constructor. -/
def daysInMonth (y m : ℕ) : ℕ :=
  if m = 2 then (if isLeap y then 29 else 28)
  else if m = 4 ∨ m = 6 ∨ m = 9 ∨ m = 11 then 30
  else 31

/-- CPython `_strptime` directive `%Y`: exactly four decimal digits. -/
def matchYear : List Char → Option (ℕ × List Char)
  | a :: b :: c :: d :: rest =>
    if a.isDigit ∧ b.isDigit ∧ c.isDigit ∧ d.isDigit then
      some (1000 * digitVal a + 100 * digitVal b + 10 * digitVal c + digitVal d, rest)
    else none
  | _ => none

/-- The alternatives of CPython `_strptime` directive `%m` — the ordered
regex alternation `1[0-2]|0[1-9]|[1-9]` — in priority order, as
(value, remaining input) pairs. -/
def monthAlts (cs : List Char) : List (ℕ × List Char) :=
  (match cs with
   | '1' :: c :: rest => if '0' ≤ c ∧ c ≤ '2' then [(10 + digitVal c, rest)] else []
   | _ => []) ++
  (match cs with
   | '0' :: c :: rest => if '1' ≤ c ∧ c ≤ '9' then [(digitVal c, rest)] else []
   | _ => []) ++
  (match cs with
   | c :: rest => if '1' ≤ c ∧ c ≤ '9' then [(digitVal c, rest)] else []
   | _ => [])

/-- The alternatives of CPython `_strptime` directive `%d` — the ordered
regex alternation `3[01]|[12]\d|0[1-9]|[1-9]` — in priority order. -/
def dayAlts (cs : List Char) : List (ℕ × List Char) :=
  (match cs with
   | '3' :: c :: rest => if c = '0' ∨ c = '1' then [(30 + digitVal c, rest)] else []
   | _ => []) ++
  (match cs with
   | c :: d :: rest =>
     if (c = '1' ∨ c = '2') ∧ d.isDigit then
       [(10 * digitVal c + digitVal d, rest)]
     else []
   | _ => []) ++
  (match cs with
   | '0' :: c :: rest => if '1' ≤ c ∧ c ≤ '9' then [(digitVal c, rest)] else []
   | _ => []) ++
  (match cs with
   | c :: rest => if '1' ≤ c ∧ c ≤ '9' then [(digitVal c, rest)] else []
   | _ => [])

/-- Regex matching of `%m%d` with backtracking across the two groups, as
Python's `re` does on the compiled `_strptime` pattern: month alternatives
are tried in priority order and, for each, day alternatives in priority
order; the first pair that matches wins (the day group ends the pattern, so
nothing further constrains it).  In particular `0011` matches as month `1`,
day `1` after backtracking out of `1[0-2]`. -/
def matchMonthDay (cs : List Char) : Option (ℕ × ℕ × List Char) :=
  (monthAlts cs).findSome? (fun p =>
    match dayAlts p.2 with
    | [] => none
    | q :: _ => some (p.1, q.1, q.2))

/-- `dt.datetime.strptime(s, '%Y%m%d')`: the regex match (with backtracking,
`matchMonthDay`) must consume the whole string (`unconverted data remains`
otherwise), and the resulting year/month/day must form a valid date
(`datetime` requires `year ≥ 1` and a day within the month). -/
def strptimeYmd (s : List Char) : Option (ℕ × ℕ × ℕ) :=
  match matchYear s with
  | none => none
  | some (y, rest) =>
    match matchMonthDay rest with
    | none => none
    | some (m, d, rest₂) =>
      if rest₂ = [] ∧ 1 ≤ y ∧ d ≤ daysInMonth y m then some (y, m, d) else none

/-- Left-pad a numeral to two digits. -/
def pad2 (n : ℕ) : String := if n < 10 then "0" ++ toString n else toString n

/-- Left-pad a numeral to four digits. -/
def pad4 (n : ℕ) : String :=
  (if n < 10 then "000" else if n < 100 then "00" else if n < 1000 then "0" else "")
    ++ toString n

/-- `.strftime('%Y%m%d')` on the parsed date. -/
def strftimeYmd : ℕ × ℕ × ℕ → String
  | (y, m, d) => pad4 y ++ pad2 m ++ pad2 d

/-- The two uncaught outcomes of `parse_0790_filename`: an `IndexError` from
`fn_parts[2]` or `fn_parts[3]` (the `except` clause catches only
`ValueError`), or the `RuntimeError` it raises in place of a `ValueError`. -/
inductive PyErr where
  | indexError : PyErr
  | runtimeError : String → PyErr
deriving DecidableEq

instance exceptDecEq {ε α : Type} [DecidableEq ε] [DecidableEq α] :
    DecidableEq (Except ε α) := fun x y =>
  match x, y with
  | .ok a, .ok b => if h : a = b then .isTrue (by rw [h]) else .isFalse (by simp [h])
  | .error e, .error f => if h : e = f then .isTrue (by rw [h]) else .isFalse (by simp [h])
  | .ok _, .error _ => .isFalse (by simp)
  | .error _, .ok _ => .isFalse (by simp)

/-- `os.path.basename`: the part after the last `/`. -/
def basename (fn : String) : List Char := (pySplit '/' fn.toList).getLastD []

/-- `parse_0790_filename`, with Python's evaluation order: `fn_parts[2]` is
indexed first, its `strptime` runs next (a `ValueError` there is converted to
the `RuntimeError` immediately), then `fn_parts[3]` is indexed and parsed. -/
def parse_0790_filename (fn : String) : Except PyErr (String × String) :=
  let fn_parts := pySplit '_' (basename fn)
  match fn_parts[2]? with
  | none => .error .indexError
  | some t₂ =>
    match strptimeYmd t₂ with
    | none => .error (.runtimeError ("Could not determine dates from filename: " ++ fn))
    | some ymd₂ =>
      match fn_parts[3]? with
      | none => .error .indexError
      | some t₃ =>
        match strptimeYmd t₃ with
        | none => .error (.runtimeError ("Could not determine dates from filename: " ++ fn))
        | some ymd₃ => .ok (strftimeYmd ymd₂, strftimeYmd ymd₃)

/-! ## Shape and cell lemmas about the embedded array operations -/

theorem takeEvery3_length (xs : List ℚ) :
    (takeEvery3 xs).length = (xs.length + 2) / 3 := by
  induction xs using takeEvery3.induct with
  | case1 => simp [takeEvery3]
  | case2 x => simp [takeEvery3]
  | case3 x y => simp [takeEvery3]
  | case4 x y z rest ih => simp only [takeEvery3, List.length_cons, ih]; omega

theorem takeEvery3_getElem? (xs : List ℚ) :
    ∀ t : ℕ, (takeEvery3 xs)[t]? = xs[3 * t]? := by
  induction xs using takeEvery3.induct with
  | case1 => intro t; simp [takeEvery3]
  | case2 x =>
    intro t
    match t with
    | 0 => simp [takeEvery3]
    | t + 1 =>
      rw [List.getElem?_eq_none (by simp [takeEvery3]),
        List.getElem?_eq_none (by simp; omega)]
  | case3 x y =>
    intro t
    match t with
    | 0 => simp [takeEvery3]
    | t + 1 =>
      rw [List.getElem?_eq_none (by simp [takeEvery3]),
        List.getElem?_eq_none (by simp; omega)]
  | case4 x y z rest ih =>
    intro t
    match t with
    | 0 => simp [takeEvery3]
    | t + 1 =>
      have h3 : 3 * (t + 1) = 3 * t + 1 + 1 + 1 := by ring
      simp only [takeEvery3, h3, List.getElem?_cons_succ]
      exact ih t

theorem sliceStep3_length (off : ℕ) (xs : List ℚ) :
    (sliceStep3 off xs).length = (xs.length - off + 2) / 3 := by
  simp [sliceStep3, takeEvery3_length]

theorem sliceStep3_getElem? (off : ℕ) (xs : List ℚ) (t : ℕ) :
    (sliceStep3 off xs)[t]? = xs[off + 3 * t]? := by
  rw [sliceStep3, takeEvery3_getElem?, List.getElem?_drop]

theorem setStep3_length (xs rs : List ℚ) :
    (setStep3 xs rs).length = xs.length := by
  induction xs, rs using setStep3.induct <;> simp_all [setStep3]

theorem setStep3_getElem?_of_mod_ne (xs rs : List ℚ) :
    ∀ n : ℕ, n % 3 ≠ 0 → (setStep3 xs rs)[n]? = xs[n]? := by
  induction xs, rs using setStep3.induct with
  | case1 rs => intro n _; simp [setStep3]
  | case2 x xt => intro n _; simp [setStep3]
  | case3 a r rs => intro n hn; match n with
    | 0 => omega
    | n + 1 => simp [setStep3]
  | case4 a b r rs => intro n hn; match n with
    | 0 => omega
    | 1 => simp [setStep3]
    | n + 2 => simp [setStep3]
  | case5 a b c rest r rs ih =>
    intro n hn
    match n with
    | 0 => omega
    | 1 => simp [setStep3]
    | 2 => simp [setStep3]
    | n + 3 =>
      simp only [setStep3, List.getElem?_cons_succ]
      exact ih n (by omega)

theorem setSlice3_length (off : ℕ) (xs rs : List ℚ) :
    (setSlice3 off xs rs).length = xs.length := by
  simp [setSlice3, setStep3_length]; omega

theorem setSlice3_zero_getElem? (xs rs : List ℚ) (n : ℕ) (h : n % 3 ≠ 0) :
    (setSlice3 0 xs rs)[n]? = xs[n]? := by
  simpa [setSlice3] using setStep3_getElem?_of_mod_ne xs rs n h

theorem setSlice3_one_getElem? (xs rs : List ℚ) (n : ℕ) (h : n % 3 ≠ 1) :
    (setSlice3 1 xs rs)[n]? = xs[n]? := by
  cases xs with
  | nil => cases rs <;> simp [setSlice3, setStep3]
  | cons x xt =>
    have hrw : setSlice3 1 (x :: xt) rs = x :: setStep3 xt rs := by
      simp [setSlice3]
    rw [hrw]
    match n with
    | 0 => simp
    | n + 1 =>
      simp only [List.getElem?_cons_succ]
      exact setStep3_getElem?_of_mod_ne xt rs n (by omega)

theorem zipWith_getElem?_some {α β γ : Type} (f : α → β → γ) (as : List α)
    (bs : List β) (n : ℕ) (a : α) (b : β) (ha : as[n]? = some a)
    (hb : bs[n]? = some b) : (List.zipWith f as bs)[n]? = some (f a b) := by
  simp [List.getElem?_zipWith, ha, hb]

theorem applyMask_getElem? (xs : List ℚ) (mask : List Bool) (c : ℚ) (n : ℕ)
    (v : ℚ) (m : Bool) (hx : xs[n]? = some v) (hm : mask[n]? = some m) :
    (applyMask xs mask c)[n]? = some (if m then c else v) :=
  zipWith_getElem?_some _ xs mask n v m hx hm

theorem applyMask_length (xs : List ℚ) (mask : List Bool) (c : ℚ) :
    (applyMask xs mask c).length = min xs.length mask.length := by
  simp [applyMask]

theorem missing_locs_prior_getElem? (row : List ℚ) (n : ℕ) (v : ℚ)
    (h : row[n]? = some v) :
    (missing_locs_prior row)[n]? = some (decide (v = -999)) := by
  simp [missing_locs_prior, h]

theorem missing_locs_post_getElem? (row : List ℚ) (n : ℕ) (v : ℚ)
    (h : row[n]? = some v) :
    (missing_locs_post row)[n]? = some (decide (v = 999)) := by
  simp [missing_locs_post, h]

theorem zeroedRow_length (row : List ℚ) : (zeroedRow row).length = row.length := by
  simp [zeroedRow, applyMask_length, missing_locs_prior, missing_locs_post]

theorem zeroedRow_getElem? (row : List ℚ) (n : ℕ) (v : ℚ) (h : row[n]? = some v) :
    (zeroedRow row)[n]? = some (if v = 999 then 0 else if v = -999 then 0 else v) := by
  have h1 := applyMask_getElem? row (missing_locs_prior row) 0 n v
    (decide (v = -999)) h (missing_locs_prior_getElem? row n v h)
  have h2 := applyMask_getElem? (applyMask row (missing_locs_prior row) 0)
    (missing_locs_post row) 0 n _ (decide (v = 999)) h1
    (missing_locs_post_getElem? row n v h)
  rw [zeroedRow, h2]
  simp only [decide_eq_true_eq]

theorem ll_row_length (reproj : ℚ → ℚ → ℚ × ℚ) (row : List ℚ) :
    (ll_row reproj row).length = row.length := by
  simp [ll_row, setSlice3_length, zeroedRow_length]

theorem procRow_length (reproj : ℚ → ℚ → ℚ × ℚ) (row : List ℚ) :
    (procRow reproj row).length = row.length := by
  simp [procRow, applyMask_length, ll_row_length,
    missing_locs_prior, missing_locs_post]

/-- Cell characterization of one processed row: every cell has an output
value; a raw `-999` cell yields `-999`, a raw `999` cell yields `999`, and a
non-sentinel cell of the concentration channel (index `≡ 2 [MOD 3]`) passes
through unchanged. -/
theorem procRow_getElem? (reproj : ℚ → ℚ → ℚ × ℚ) (row : List ℚ) (n : ℕ)
    (v : ℚ) (h : row[n]? = some v) :
    ∃ w : ℚ, (procRow reproj row)[n]? = some w ∧
      (v = -999 → w = -999) ∧ (v = 999 → w = 999) ∧
      (n % 3 = 2 → v ≠ -999 → v ≠ 999 → w = v) := by
  have hn : n < row.length := by
    by_contra hc
    rw [List.getElem?_eq_none (by omega)] at h
    exact Option.noConfusion h
  have hll : n < (ll_row reproj row).length := by rw [ll_row_length]; exact hn
  obtain ⟨u, hu⟩ : ∃ u : ℚ, (ll_row reproj row)[n]? = some u :=
    ⟨(ll_row reproj row)[n], List.getElem?_eq_getElem hll⟩
  have h1 := applyMask_getElem? (ll_row reproj row) (missing_locs_prior row)
    (-999) n u (decide (v = -999)) hu (missing_locs_prior_getElem? row n v h)
  have h2 := applyMask_getElem?
    (applyMask (ll_row reproj row) (missing_locs_prior row) (-999))
    (missing_locs_post row) 999 n _ (decide (v = 999)) h1
    (missing_locs_post_getElem? row n v h)
  refine ⟨if v = 999 then 999 else if v = -999 then -999 else u, ?_, ?_, ?_, ?_⟩
  · rw [procRow, h2]; simp only [decide_eq_true_eq]
  · intro hv; subst hv; norm_num
  · intro hv; subst hv; norm_num
  · intro hmod hv1 hv2
    rw [if_neg hv2, if_neg hv1]
    have hu2 : (ll_row reproj row)[n]? = some v := by
      rw [ll_row, setSlice3_one_getElem? _ _ n (by omega),
        setSlice3_zero_getElem? _ _ n (by omega),
        zeroedRow_getElem? row n v h]
      simp [hv1, hv2]
    rw [hu] at hu2
    exact Option.some.inj hu2

/-! ## Claim theorems -/

/-- A concrete stand-in for the pyproj `epsg:3408 → epsg:4326` transformer in
closed computations: like the real transformer, its range stays inside
geodetic bounds (latitudes in `[-90, 90]`, longitudes in `[-180, 180]`) and
in particular never equals a sentinel value. -/
def demoReproj : ℚ → ℚ → ℚ × ℚ := fun _ _ => (75, -100)

/-- C2: sentinel detection happens once over the raw row before any
arithmetic, and the masks are reapplied verbatim after all computation: for
any reprojector (i.e. regardless of what the intermediate math produced),
every cell whose raw value is exactly `-999` holds `-999` in the reassembled
output row, and every cell whose raw value is exactly `999` holds `999`. -/
theorem C2_sentinel_masks_reapplied_verbatim (reproj : ℚ → ℚ → ℚ × ℚ)
    (row : List ℚ) (n : ℕ) (v : ℚ) (h : row[n]? = some v) :
    (v = -999 → (procRow reproj row)[n]? = some (-999)) ∧
    (v = 999 → (procRow reproj row)[n]? = some 999) := by
  obtain ⟨w, hw, hprior, hpost, -⟩ := procRow_getElem? reproj row n v h
  exact ⟨fun hv => by rw [hw, hprior hv], fun hv => by rw [hw, hpost hv]⟩

/-- Witness for C2 at the concrete row `[-999, 999, 5]`. -/
theorem C2_sentinel_masks_reapplied_verbatim_witness :
    (procRow demoReproj [-999, 999, 5])[0]? = some (-999 : ℚ) ∧
    (procRow demoReproj [-999, 999, 5])[1]? = some (999 : ℚ) :=
  ⟨(C2_sentinel_masks_reapplied_verbatim demoReproj [-999, 999, 5] 0 (-999)
      (by decide)).1 rfl,
   (C2_sentinel_masks_reapplied_verbatim demoReproj [-999, 999, 5] 1 999
      (by decide)).2 rfl⟩

/-- C1 counterexample: the claim fails on the raw row `[1, 1, -999]` — a
single triplet whose concentration channel is `-999` while its i/j channels
are valid.  With a reprojector of geodetic range (as pyproj's is), the output
triplet is partially sentineled: the concentration cell is `-999` but the lat
cell holds the reprojected value `75`, not `-999`: the masks are per cell,
not per triplet. -/
theorem C1_cx_partial_sentinel_triplet :
    ([1, 1, -999] : List ℚ)[2]? = some (-999 : ℚ) ∧
    (procRow demoReproj [1, 1, -999])[2]? = some (-999 : ℚ) ∧
    (procRow demoReproj [1, 1, -999])[0]? = some (75 : ℚ) ∧
    ¬ (procRow demoReproj [1, 1, -999])[0]? = some (-999 : ℚ) := by decide

/-- C1 (amended): for every triplet position where the raw value in all three
channels equals `-999` (resp. all three equal `999`), the corresponding output
cell in all three channels at that triplet position equals `-999` (resp.
`999`) exactly; a raw triplet in which only some channels carry the sentinel
yields a partially sentineled output triplet (see the counterexample). -/
theorem C1_full_sentinel_triplet_roundtrip (reproj : ℚ → ℚ → ℚ × ℚ)
    (row : List ℚ) (t : ℕ) (s : ℚ) (hs : s = -999 ∨ s = 999)
    (h0 : row[3 * t]? = some s) (h1 : row[3 * t + 1]? = some s)
    (h2 : row[3 * t + 2]? = some s) :
    (procRow reproj row)[3 * t]? = some s ∧
    (procRow reproj row)[3 * t + 1]? = some s ∧
    (procRow reproj row)[3 * t + 2]? = some s := by
  have key : ∀ n : ℕ, row[n]? = some s → (procRow reproj row)[n]? = some s := by
    intro n h
    obtain ⟨w, hw, hprior, hpost, -⟩ := procRow_getElem? reproj row n s h
    rcases hs with hv | hv
    · rw [hw, hprior hv, hv]
    · rw [hw, hpost hv, hv]
  exact ⟨key _ h0, key _ h1, key _ h2⟩

/-- Witness for the amended C1 at the fully sentineled row `[-999, -999, -999]`. -/
theorem C1_full_sentinel_triplet_roundtrip_witness :
    (procRow demoReproj [-999, -999, -999])[0]? = some (-999 : ℚ) ∧
    (procRow demoReproj [-999, -999, -999])[1]? = some (-999 : ℚ) ∧
    (procRow demoReproj [-999, -999, -999])[2]? = some (-999 : ℚ) :=
  C1_full_sentinel_triplet_roundtrip demoReproj [-999, -999, -999] 0 (-999)
    (Or.inl rfl) (by decide) (by decide) (by decide)

/-- C3: for a row whose columns are `[i0, j0, c0, i1, j1, c1, ...]`, the
I-subtable is columns `0, 3, 6, ...`, the J-subtable is columns `1, 4, 7, ...`
and the C-subtable is columns `2, 5, 8, ...`, all three of equal shape. -/
theorem C3_triplet_deinterleaving (k : ℕ) (row : List ℚ)
    (h : row.length = 3 * k) :
    (sliceStep3 0 row).length = k ∧ (sliceStep3 1 row).length = k ∧
    (sliceStep3 2 row).length = k ∧
    (∀ t : ℕ, (sliceStep3 0 row)[t]? = row[3 * t]? ∧
      (sliceStep3 1 row)[t]? = row[3 * t + 1]? ∧
      (sliceStep3 2 row)[t]? = row[3 * t + 2]?) := by
  refine ⟨?_, ?_, ?_, fun t => ⟨?_, ?_, ?_⟩⟩
  · rw [sliceStep3_length, h]; omega
  · rw [sliceStep3_length, h]; omega
  · rw [sliceStep3_length, h]; omega
  · rw [sliceStep3_getElem?, Nat.zero_add]
  · rw [sliceStep3_getElem?, Nat.add_comm 1 (3 * t)]
  · rw [sliceStep3_getElem?, Nat.add_comm 2 (3 * t)]

/-- Witness for C3 at the concrete row `[1, 2, 3, 4, 5, 6]` (two triplets). -/
theorem C3_triplet_deinterleaving_witness :
    ([1, 2, 3, 4, 5, 6] : List ℚ).length = 3 * 2 ∧
    (sliceStep3 0 ([1, 2, 3, 4, 5, 6] : List ℚ)).length = 2 ∧
    (sliceStep3 1 ([1, 2, 3, 4, 5, 6] : List ℚ))[1]? = some (5 : ℚ) :=
  ⟨by decide,
   (C3_triplet_deinterleaving 2 [1, 2, 3, 4, 5, 6] (by decide)).1,
   ((C3_triplet_deinterleaving 2 [1, 2, 3, 4, 5, 6] (by decide)).2.2.2 1).2.1.trans
     (by decide)⟩

/-- C4: the grid-to-projected transform computes `x = (i - 180) * 25067.525`
and `y = (180 - j) * 25067.525`; in particular `i = 180, j = 180` maps to
`x = 0, y = 0`, and `i = 179, j = 179` maps to `x = -25067.525`,
`y = 25067.525` (exactly, hence within the claimed `1e-3` tolerance). -/
theorem C4_grid_transform_exact :
    (∀ i j : ℚ, xval i = (i - 180) * 25067.525 ∧ yval j = (180 - j) * 25067.525) ∧
    xval 180 = 0 ∧ yval 180 = 0 ∧
    |xval 179 - (-25067.525)| ≤ 1 / 1000 ∧ |yval 179 - 25067.525| ≤ 1 / 1000 := by
  refine ⟨fun i j => ⟨rfl, rfl⟩, ?_, ?_, ?_, ?_⟩ <;>
    norm_num [xval, yval, grid_resolution]

/-- C5: the derived output header keeps exactly the comma-separated column
names whose first two characters are `i_`, strips that prefix and comma-joins
the rest in order; on `id,x,y,i_20000101,i_20000201` it yields
`20000101,20000201`. -/
theorem C5_header_derivation :
    csv_header "id,x,y,i_20000101,i_20000201" = "20000101,20000201" ∧
    (∀ s : String, csv_header s = String.mk (pyJoin ','
      (((pySplit ',' s.toList).filter (fun val => val.take 2 = ['i', '_'])).map
        (fun val => val.drop 2)))) :=
  ⟨by decide, fun s => rfl⟩

/-- C6: the valid sample filename parses to
`start = 20000801, end = 20010801`, and whenever the third or fourth
underscore-separated token of the basename is present but not parseable as
`YYYYMMDD`, the function fails with the descriptive `RuntimeError` echoing
the offending filename. -/
theorem C6_filename_parsing :
    parse_0790_filename "nsidc0790_imparcels_20000801_20010801_v1.0.csv.gz"
      = .ok ("20000801", "20010801") ∧
    (∀ fn t₂, (pySplit '_' (basename fn))[2]? = some t₂ →
      strptimeYmd t₂ = none →
      parse_0790_filename fn
        = .error (.runtimeError ("Could not determine dates from filename: " ++ fn))) ∧
    (∀ fn t₂ d₂ t₃, (pySplit '_' (basename fn))[2]? = some t₂ →
      strptimeYmd t₂ = some d₂ → (pySplit '_' (basename fn))[3]? = some t₃ →
      strptimeYmd t₃ = none →
      parse_0790_filename fn
        = .error (.runtimeError ("Could not determine dates from filename: " ++ fn))) := by
  refine ⟨by rfl, ?_, ?_⟩
  · intro fn t₂ h1 h2
    simp only [parse_0790_filename, h1, h2]
  · intro fn t₂ d₂ t₃ h1 h2 h3 h4
    simp only [parse_0790_filename, h1, h2, h3, h4]

/-- Witness for C6's error clause at a concrete filename with a non-date
third token. -/
theorem C6_filename_parsing_witness :
    parse_0790_filename "nsidc0790_imparcels_2000080x_20010801_v1.0.csv.gz"
      = .error (.runtimeError
        "Could not determine dates from filename: nsidc0790_imparcels_2000080x_20010801_v1.0.csv.gz") :=
  C6_filename_parsing.2.1 _ "2000080x".toList (by decide) (by decide)

/-- C7: each of the three output tables has the same row count as the input
table and exactly one third of the input's column count as data columns. -/
theorem C7_output_shapes (reproj : ℚ → ℚ → ℚ × ℚ) (k : ℕ)
    (rows : List (List ℚ)) (h : ∀ r ∈ rows, r.length = 3 * k) :
    (latsTable reproj rows).length = rows.length ∧
    (lonsTable reproj rows).length = rows.length ∧
    (concTable reproj rows).length = rows.length ∧
    (∀ r ∈ latsTable reproj rows, r.length = k) ∧
    (∀ r ∈ lonsTable reproj rows, r.length = k) ∧
    (∀ r ∈ concTable reproj rows, r.length = k) := by
  refine ⟨by simp [latsTable], by simp [lonsTable], by simp [concTable],
    ?_, ?_, ?_⟩
  all_goals
    intro r hr
    simp only [latsTable, lonsTable, concTable, List.mem_map] at hr
    obtain ⟨row, hrow, rfl⟩ := hr
    rw [sliceStep3_length, procRow_length, h row hrow]
    omega

/-- Witness for C7 at a concrete two-row, one-triplet table. -/
theorem C7_output_shapes_witness :
    (latsTable demoReproj [[1, 2, 3], [4, 5, 6]]).length = 2 ∧
    (∀ r ∈ concTable demoReproj [[1, 2, 3], [4, 5, 6]], r.length = 1) :=
  ⟨((C7_output_shapes demoReproj 1 [[1, 2, 3], [4, 5, 6]] (by decide)).1).trans
     (by decide),
   (C7_output_shapes demoReproj 1 [[1, 2, 3], [4, 5, 6]] (by decide)).2.2.2.2.2⟩

/-- C9 counterexample: the claim fails at the concrete filename `a_b_x.csv`,
whose basename has three (fewer than four) underscore-separated parts: because
`fn_parts[2]` exists but `strptime` raises `ValueError` on it first, the
function raises the descriptive `RuntimeError`, not an `IndexError`. -/
theorem C9_cx_three_parts_runtime_error :
    (pySplit '_' (basename "a_b_x.csv")).length < 4 ∧
    parse_0790_filename "a_b_x.csv"
      = .error (.runtimeError "Could not determine dates from filename: a_b_x.csv") ∧
    parse_0790_filename "a_b_x.csv" ≠ .error .indexError := by decide

/-- C9 (amended): with fewer than three underscore-separated parts the
function raises an uncaught `IndexError` (from `fn_parts[2]`); with exactly
three parts it raises an `IndexError` (from `fn_parts[3]`) exactly when the
third token parses as `YYYYMMDD`, and otherwise the `ValueError` from the
third token is converted to the descriptive `RuntimeError` first. -/
theorem C9_index_error_vs_runtime_error (fn : String) :
    ((pySplit '_' (basename fn)).length < 3 →
      parse_0790_filename fn = .error .indexError) ∧
    (∀ t₂ d₂, (pySplit '_' (basename fn)).length = 3 →
      (pySplit '_' (basename fn))[2]? = some t₂ → strptimeYmd t₂ = some d₂ →
      parse_0790_filename fn = .error .indexError) ∧
    (∀ t₂, (pySplit '_' (basename fn))[2]? = some t₂ → strptimeYmd t₂ = none →
      parse_0790_filename fn
        = .error (.runtimeError ("Could not determine dates from filename: " ++ fn))) := by
  refine ⟨?_, ?_, ?_⟩
  · intro hlen
    have h2 : (pySplit '_' (basename fn))[2]? = none :=
      List.getElem?_eq_none (by omega)
    simp only [parse_0790_filename, h2]
  · intro t₂ d₂ hlen h2 hd
    have h3 : (pySplit '_' (basename fn))[3]? = none :=
      List.getElem?_eq_none (by omega)
    simp only [parse_0790_filename, h2, hd, h3]
  · intro t₂ h2 hd
    simp only [parse_0790_filename, h2, hd]

/-- Witness for the amended C9: one part gives an `IndexError`, and three
parts with a parseable date also give an `IndexError`. -/
theorem C9_index_error_vs_runtime_error_witness :
    parse_0790_filename "nsidc0790.csv" = .error .indexError ∧
    parse_0790_filename "a_b_20000801" = .error .indexError :=
  ⟨(C9_index_error_vs_runtime_error "nsidc0790.csv").1 (by decide),
   (C9_index_error_vs_runtime_error "a_b_20000801").2.1 "20000801".toList
     (2000, 8, 1) (by decide) (by decide) (by decide)⟩

/-- C10: a frame effect of the pipeline: every concentration-channel cell
(column index `≡ 2 [MOD 3]`) whose raw value is neither `-999` nor `999`
appears unchanged in the concentration output table — lat/lon are written
only into columns `≡ 0` and `≡ 1 [MOD 3]`, and only sentinel-flagged cells
are otherwise modified. -/
theorem C10_conc_channel_unchanged (reproj : ℚ → ℚ → ℚ × ℚ) (row : List ℚ)
    (t : ℕ) (v : ℚ) (h : row[3 * t + 2]? = some v) (h1 : v ≠ -999)
    (h2 : v ≠ 999) :
    (sliceStep3 2 (procRow reproj row))[t]? = some v := by
  rw [sliceStep3_getElem?, Nat.add_comm 2 (3 * t)]
  obtain ⟨w, hw, -, -, hpass⟩ := procRow_getElem? reproj row (3 * t + 2) v h
  rw [hw, hpass (by omega) h1 h2]

/-- Witness for C10 at the concrete row `[1, 1, 37]`. -/
theorem C10_conc_channel_unchanged_witness :
    (sliceStep3 2 (procRow demoReproj [1, 1, 37]))[0]? = some (37 : ℚ) :=
  C10_conc_channel_unchanged demoReproj [1, 1, 37] 0 37 (by decide)
    (by norm_num) (by norm_num)

end NSIDC0790
